import Mathlib

/-!
Verification of the RAG tool layer of the `aisearch-openai-rag-audio` backend
(`app/backend/ragtools.py` and `app/backend/app.py`), as a shallow embedding.

Python dictionaries whose keys are strings are embedded as association lists
`List (String × _)` with first-match lookup; handlers that can raise are
embedded as `Except PyErr _`; external collaborators (the Azure search client,
the Supabase client, `json.loads`) are parameters of the embedded handlers.
Each embedded handler additionally returns the request/insert payloads it sent
to its collaborator, so that theorems can speak about the traffic that crossed
the boundary.
-/

/-- Embedding of the Python (JSON-serializable) values that flow through the
tool handlers: `None`, booleans, integers, strings, lists and string-keyed
dictionaries. -/
inductive PyVal where
  | none : PyVal
  | bool : Bool → PyVal
  | int : Int → PyVal
  | str : String → PyVal
  | list : List PyVal → PyVal
  | dict : List (String × PyVal) → PyVal

/-- Embedding of the Python exceptions that the handlers in `ragtools.py` can
raise across the tool-invocation boundary. -/
inductive PyErr where
  | keyError (key : String) : PyErr
  | typeError (msg : String) : PyErr
  | attributeError (msg : String) : PyErr
deriving DecidableEq

/-- Modelled from the spec: `ToolResultDirection` of `rtmt.py` (imported by
`ragtools.py` but not part of the given sources) — the destination enum of a
tool result, `{ToServer, ToClient}`. -/
inductive ToolResultDirection where
  | TO_SERVER : ToolResultDirection
  | TO_CLIENT : ToolResultDirection
deriving DecidableEq

/-- Modelled from the spec: `ToolResult` of `rtmt.py` — a text payload
(typically JSON-encoded) tagged with its destination. -/
structure ToolResult where
  text : String
  destination : ToolResultDirection
deriving DecidableEq

/-- First-match lookup in an association list, the embedding of `d[k]` /
`d.get(k)` on a Python dict (a Python dict has unique keys, so first match is
the only match). -/
def dlookup {β : Type} : List (String × β) → String → Option β
  | [], _ => Option.none
  | (k', v) :: rest, k => if k' = k then some v else dlookup rest k

/-- Embedding of Python dict assignment `d[k] = v`: if the key is present its
value is updated in place (keeping its position), otherwise the binding is
appended. -/
def dictSet {β : Type} : List (String × β) → String → β → List (String × β)
  | [], k, v => [(k, v)]
  | (k', v') :: rest, k, v =>
    if k' = k then (k, v) :: rest else (k', v') :: dictSet rest k v

/-- Embedding of `d.get(k)` with default `None`. -/
def pyGet (d : List (String × PyVal)) (k : String) : PyVal :=
  (dlookup d k).getD PyVal.none

/-- Python truthiness of an embedded value (`bool(v)`). -/
def pyTruthy : PyVal → Bool
  | PyVal.none => false
  | PyVal.bool b => b
  | PyVal.int n => decide (n ≠ 0)
  | PyVal.str s => !s.data.isEmpty
  | PyVal.list xs => !xs.isEmpty
  | PyVal.dict es => !es.isEmpty

/-- Truthiness of an `Optional[str]` (used for `if semantic_configuration`). -/
def optStrTruthy : Option String → Bool
  | Option.none => false
  | some s => !s.data.isEmpty

/-- Lower-case hexadecimal digit, for `json.dumps`'s non-ASCII escapes. -/
def hexDigit (n : Nat) : Char :=
  if n < 10 then Char.ofNat (48 + n) else Char.ofNat (87 + n)

/-- Four lower-case hex digits. -/
def hex4 (n : Nat) : String :=
  String.mk [hexDigit (n / 4096 % 16), hexDigit (n / 256 % 16),
             hexDigit (n / 16 % 16), hexDigit (n % 16)]

/-- `\uXXXX` escape of a code point, using a surrogate pair above `0xFFFF`,
exactly as CPython's `json.dumps` with `ensure_ascii=True` produces. -/
def uEsc (n : Nat) : String :=
  if n < 65536 then "\\u" ++ hex4 n
  else "\\u" ++ hex4 (55296 + (n - 65536) / 1024) ++
       "\\u" ++ hex4 (56320 + (n - 65536) % 1024)

/-- Escape of one character inside a JSON string, following CPython's
`json.dumps` defaults (`ensure_ascii=True`: everything outside `0x20`–`0x7e`
is escaped, with the usual two-character shortcuts). -/
def escJsonChar (c : Char) : String :=
  if c = '"' then "\\\""
  else if c = '\\' then "\\\\"
  else if c = '\n' then "\\n"
  else if c = '\r' then "\\r"
  else if c = '\t' then "\\t"
  else if c.toNat = 8 then "\\b"
  else if c.toNat = 12 then "\\f"
  else if c.toNat < 32 || 126 < c.toNat then uEsc c.toNat
  else String.mk [c]

/-- JSON quoting of a string, as `json.dumps` renders `str` values and keys. -/
def jsonQuote (s : String) : String :=
  "\"" ++ String.join (s.data.map escJsonChar) ++ "\""

mutual

/-- Embedding of `json.dumps` with CPython's default separators `", "` and
`": "` on the embedded values. -/
def pyDumps : PyVal → String
  | PyVal.none => "null"
  | PyVal.bool true => "true"
  | PyVal.bool false => "false"
  | PyVal.int n => toString n
  | PyVal.str s => jsonQuote s
  | PyVal.list xs => "[" ++ pyDumpsList xs ++ "]"
  | PyVal.dict es => "\x7b" ++ pyDumpsEntries es ++ "\x7d"

/-- Comma-separated rendering of a JSON array's elements. -/
def pyDumpsList : List PyVal → String
  | [] => ""
  | [x] => pyDumps x
  | x :: y :: rest => pyDumps x ++ ", " ++ pyDumpsList (y :: rest)

/-- Comma-separated rendering of a JSON object's entries. -/
def pyDumpsEntries : List (String × PyVal) → String
  | [] => ""
  | [(k, v)] => jsonQuote k ++ ": " ++ pyDumps v
  | (k, v) :: e :: rest => jsonQuote k ++ ": " ++ pyDumps v ++ ", " ++ pyDumpsEntries (e :: rest)

end

/-- ASCII decimal digit test, the embedding of `\d` as it occurs in the
format directives of `datetime.strptime` (restricted to ASCII digits, which
is the only alphabet the claims exercise). -/
def isDig (c : Char) : Bool :=
  48 ≤ c.toNat && c.toNat ≤ 57

/-- Numeric value of an ASCII digit character. -/
def digVal (c : Char) : Nat := c.toNat - 48

/-- Numeric value of a digit string (most significant digit first). -/
def digitsVal (cs : List Char) : Nat :=
  cs.foldl (fun a c => a * 10 + digVal c) 0

/-- Proleptic-Gregorian leap-year test, as used by `datetime`. -/
def leapYear (y : Nat) : Bool :=
  y % 4 == 0 && (y % 100 != 0 || y % 400 == 0)

/-- Number of days of a month, as validated by the `datetime` constructor. -/
def daysInMonth (y m : Nat) : Nat :=
  if m = 2 then (if leapYear y then 29 else 28)
  else if m = 4 ∨ m = 6 ∨ m = 9 ∨ m = 11 then 30
  else 31

/-- Embedding of `datetime.strptime(s, "%Y-%m-%d")` followed by the validity
checks of the `datetime` constructor.  CPython's `_strptime` compiles the
format to the regex `(?P<Y>\d\d\d\d)-(?P<m>1[0-2]|0[1-9]|[1-9])-`
`(?P<d>3[01]|[12]\d|0[1-9]|[1-9])` and raises `ValueError` when the regex
does not match, when data remains after the match, or when the resulting
date is invalid.  Deterministically: a year of exactly four digits, then a
month of one or two digits valued 1–12, then a day of one or two digits
valued between 1 and the length of that month, with `-` separators and
nothing left over.  Returns `none` where Python raises `ValueError`. -/
def parseYMDChars : List Char → Option (Nat × Nat × Nat)
  | c1 :: c2 :: c3 :: c4 :: c5 :: rest =>
    if isDig c1 && isDig c2 && isDig c3 && isDig c4 && decide (c5 = '-') then
      match rest.dropWhile isDig with
      | c6 :: rest2 =>
        if c6 = '-' then
          if rest2.dropWhile isDig = [] ∧
             1 ≤ (rest.takeWhile isDig).length ∧ (rest.takeWhile isDig).length ≤ 2 ∧
             1 ≤ (rest2.takeWhile isDig).length ∧ (rest2.takeWhile isDig).length ≤ 2 then
            if 1 ≤ digitsVal [c1, c2, c3, c4] ∧
               1 ≤ digitsVal (rest.takeWhile isDig) ∧
               digitsVal (rest.takeWhile isDig) ≤ 12 ∧
               1 ≤ digitsVal (rest2.takeWhile isDig) ∧
               digitsVal (rest2.takeWhile isDig) ≤
                 daysInMonth (digitsVal [c1, c2, c3, c4]) (digitsVal (rest.takeWhile isDig)) then
              some (digitsVal [c1, c2, c3, c4], digitsVal (rest.takeWhile isDig),
                digitsVal (rest2.takeWhile isDig))
            else Option.none
          else Option.none
        else Option.none
      | [] => Option.none
    else Option.none
  | _ => Option.none

/-- Embedding of `dt.strftime("%Y-%m-%d")`: the year zero-padded to four
digits, month and day zero-padded to two (CPython's documented rendering). -/
def renderYMD (y m d : Nat) : List Char :=
  [Char.ofNat (48 + y / 1000 % 10), Char.ofNat (48 + y / 100 % 10),
   Char.ofNat (48 + y / 10 % 10), Char.ofNat (48 + y % 10), '-',
   Char.ofNat (48 + m / 10 % 10), Char.ofNat (48 + m % 10), '-',
   Char.ofNat (48 + d / 10 % 10), Char.ofNat (48 + d % 10)]

/-- Embedding of `try_parse_date` (ragtools.py): `None` for a missing or
falsy (empty) input, otherwise `strptime`/`strftime` round-trip with
`ValueError` mapped to `None`. -/
def try_parse_date : Option String → Option String
  | Option.none => Option.none
  | some s =>
    if s.data.isEmpty then Option.none
    else
      match parseYMDChars s.data with
      | some (y, m, d) => some (String.mk (renderYMD y m d))
      | Option.none => Option.none

/-- Embedding of `try_parse_date` applied to an arbitrary Python value, as the
column mapping of `_save_utility_form` does: a falsy value short-circuits to
`None` (`if not date_str`), a truthy string is parsed, and a truthy non-string
makes `datetime.strptime` raise `TypeError`. -/
def tryParseDatePy (v : PyVal) : Except PyErr PyVal :=
  if pyTruthy v then
    match v with
    | PyVal.str s =>
      match try_parse_date (some s) with
      | some r => Except.ok (PyVal.str r)
      | Option.none => Except.ok PyVal.none
    | _ => Except.error (PyErr.typeError "strptime() argument 1 must be str")
  else Except.ok PyVal.none

/-- Embedding of `VectorizableTextQuery(text=..., k_nearest_neighbors=50,
fields=...)` as built by `_search_tool`. -/
structure VectorQuery where
  text : PyVal
  kNearestNeighbors : Nat
  fields : String

/-- The request `_search_tool` passes to `search_client.search`:
`search_text`, `query_type`, `semantic_configuration_name`, `top`,
`vector_queries` and `select`. -/
structure SearchRequest where
  searchText : PyVal
  queryType : String
  semanticConfigurationName : Option String
  top : Nat
  vectorQueries : List VectorQuery
  select : String

/-- The search request built by `_search_tool` (ragtools.py): a vector query
over the embedding field is attached exactly when `use_vector_query` holds,
the query type is `"semantic"` when a semantic configuration is supplied
(Python truthiness) and `"simple"` otherwise, `top=5`, and `select` is the
`", "`-join of the identifier and content fields. -/
def searchToolRequest (semanticConfiguration : Option String)
    (identifierField contentField embeddingField : String)
    (useVectorQuery : Bool) (q : PyVal) : SearchRequest :=
  { searchText := q
    queryType := if optStrTruthy semanticConfiguration then "semantic" else "simple"
    semanticConfigurationName := semanticConfiguration
    top := 5
    vectorQueries :=
      if useVectorQuery then
        [{ text := q, kNearestNeighbors := 50, fields := embeddingField }]
      else []
    select := identifierField ++ ", " ++ contentField }

/-- The result-accumulation loop of `_search_tool`: for each returned document
`r`, append `f"[{r[identifier_field]}]: {r[content_field]}\n-----\n"`; a
document lacking a selected field makes the subscript raise `KeyError`.
Documents are embedded as string-valued association lists (the selected index
fields are strings). -/
def foldDocs (idf cf : String) : List (List (String × String)) → String → Except PyErr String
  | [], acc => Except.ok acc
  | r :: rest, acc =>
    match dlookup r idf with
    | Option.none => Except.error (PyErr.keyError idf)
    | some idv =>
      match dlookup r cf with
      | Option.none => Except.error (PyErr.keyError cf)
      | some cv => foldDocs idf cf rest (acc ++ "[" ++ idv ++ "]: " ++ cv ++ "\n-----\n")

/-- Embedding of `_search_tool` (ragtools.py).  `args['query']` is read first
(raising `KeyError` when absent, as the f-string in the opening `print`
does), the search request is built, the external client (a parameter) is
invoked, and the results are folded into the `TO_SERVER` tool result.  The
request sent to the client is returned alongside the result. -/
def searchTool (semanticConfiguration : Option String)
    (identifierField contentField embeddingField : String)
    (useVectorQuery : Bool)
    (client : SearchRequest → List (List (String × String)))
    (args : List (String × PyVal)) : Except PyErr (SearchRequest × ToolResult) :=
  match dlookup args "query" with
  | Option.none => Except.error (PyErr.keyError "query")
  | some q =>
    match foldDocs identifierField contentField
        (client (searchToolRequest semanticConfiguration identifierField contentField
          embeddingField useVectorQuery q)) "" with
    | Except.error e => Except.error e
    | Except.ok text =>
      Except.ok (searchToolRequest semanticConfiguration identifierField contentField
          embeddingField useVectorQuery q,
        { text := text, destination := ToolResultDirection.TO_SERVER })

/-- Character class of `KEY_PATTERN = re.compile(r'^[a-zA-Z0-9_=\-]+$')`:
ASCII letters, digits, underscore, equals sign and hyphen. -/
def isKeyChar (c : Char) : Bool :=
  (65 ≤ c.toNat && c.toNat ≤ 90) || (97 ≤ c.toNat && c.toNat ≤ 122) ||
  (48 ≤ c.toNat && c.toNat ≤ 57) || c.toNat == 95 || c.toNat == 61 || c.toNat == 45

/-- Embedding of `KEY_PATTERN.match(s)` being truthy.  Python's `$` (without
`re.MULTILINE`) matches at the end of the string and also just before a
newline at the end of the string, so the pattern accepts a nonempty run of
class characters optionally followed by one final newline. -/
def keyPatternMatch (s : String) : Bool :=
  let core := if s.data.getLast? = some '\n' then s.data.dropLast else s.data
  !core.isEmpty && core.all isKeyChar

/-- The list comprehension of `_report_grounding_tool`:
`[s for s in args["sources"] if KEY_PATTERN.match(s)]`, where a non-string
element makes `KEY_PATTERN.match` raise `TypeError`. -/
def filterSources : List PyVal → Except PyErr (List String)
  | [] => Except.ok []
  | PyVal.str s :: rest =>
    match filterSources rest with
    | Except.error e => Except.error e
    | Except.ok tail => Except.ok (if keyPatternMatch s then s :: tail else tail)
  | _ :: _ => Except.error (PyErr.typeError "expected string or bytes-like object")

/-- Python iteration over the value of `args["sources"]`: a list yields its
elements, a string its characters (as one-character strings), a dict its
keys; other values are not iterable and raise `TypeError`. -/
def pyIter : PyVal → Except PyErr (List PyVal)
  | PyVal.list xs => Except.ok xs
  | PyVal.str s => Except.ok (s.data.map fun c => PyVal.str (String.mk [c]))
  | PyVal.dict es => Except.ok (es.map fun kv => PyVal.str kv.1)
  | _ => Except.error (PyErr.typeError "object is not iterable")

/-- The request `_report_grounding_tool` passes to `search_client.search`. -/
structure GroundingRequest where
  searchText : String
  searchFields : List String
  select : List String
  top : Nat
  queryType : String

/-- The grounding search request built from the filtered sources:
`search_text` is their `" OR "`-join, `search_fields=[identifier_field]`,
`select` the three configured fields, `top=len(sources)` (of the filtered
list) and `query_type="full"`. -/
def groundingRequestFor (idf tf cf : String) (sources : List String) : GroundingRequest :=
  { searchText := String.intercalate " OR " sources
    searchFields := [idf]
    select := [idf, tf, cf]
    top := sources.length
    queryType := "full" }

/-- The result-collection loop of `_report_grounding_tool`: each document
becomes `{"chunk_id": r[idf], "title": r[tf], "chunk": r[cf]}`; a missing
field raises `KeyError`. -/
def groundingDocs (idf tf cf : String) : List (List (String × String)) → Except PyErr (List PyVal)
  | [] => Except.ok []
  | r :: rest =>
    match dlookup r idf with
    | Option.none => Except.error (PyErr.keyError idf)
    | some idv =>
      match dlookup r tf with
      | Option.none => Except.error (PyErr.keyError tf)
      | some tv =>
        match dlookup r cf with
        | Option.none => Except.error (PyErr.keyError cf)
        | some cv =>
          match groundingDocs idf tf cf rest with
          | Except.error e => Except.error e
          | Except.ok tail =>
            Except.ok (PyVal.dict [("chunk_id", PyVal.str idv), ("title", PyVal.str tv),
                                   ("chunk", PyVal.str cv)] :: tail)

/-- Embedding of `_report_grounding_tool` (ragtools.py): filter the sources
through `KEY_PATTERN`, send the grounding request to the external client,
collect the documents and return them JSON-encoded with destination
`TO_CLIENT`.  The request sent to the client is returned alongside. -/
def reportGroundingTool (idf tf cf : String)
    (client : GroundingRequest → List (List (String × String)))
    (args : List (String × PyVal)) : Except PyErr (GroundingRequest × ToolResult) :=
  match dlookup args "sources" with
  | Option.none => Except.error (PyErr.keyError "sources")
  | some v =>
    match pyIter v with
    | Except.error e => Except.error e
    | Except.ok items =>
      match filterSources items with
      | Except.error e => Except.error e
      | Except.ok sources =>
        match groundingDocs idf tf cf (client (groundingRequestFor idf tf cf sources)) with
        | Except.error e => Except.error e
        | Except.ok docs =>
          Except.ok (groundingRequestFor idf tf cf sources,
            { text := pyDumps (PyVal.dict [("sources", PyVal.list docs)])
              destination := ToolResultDirection.TO_CLIENT })

/-- The `default_form` dict literal of `_fill_out_utility_form` (ragtools.py),
in source order. -/
def default_form : List (String × PyVal) :=
  [("county_case_number", PyVal.str ""), ("social_security_number", PyVal.str ""),
   ("date_of_birth", PyVal.str ""),
   ("first_name", PyVal.str ""), ("middle_initial", PyVal.str ""),
   ("last_name", PyVal.str ""), ("suffix", PyVal.str ""),
   ("residence_address_street", PyVal.str ""), ("residence_address_city", PyVal.str ""),
   ("residence_address_zip", PyVal.str ""),
   ("mailing_address_street", PyVal.str ""), ("mailing_address_city", PyVal.str ""),
   ("mailing_address_zip", PyVal.str ""),
   ("phone_number", PyVal.str ""), ("email_address", PyVal.str ""),
   ("household_members", PyVal.list []), ("additional_income_sources", PyVal.list []),
   ("additional_family_members", PyVal.list []),
   ("are_you_currently_receiving", PyVal.dict
     [("energy_assistance_cip_lieap", PyVal.bool false),
      ("food_and_nutrition_fns_snap", PyVal.bool false),
      ("medicaid", PyVal.bool false), ("work_first", PyVal.bool false)]),
   ("have_you_received_raleigh_water_assistance", PyVal.bool false),
   ("most_recent_raleigh_water_assistance_date", PyVal.str ""),
   ("are_you_renting_your_home_apartment", PyVal.str ""),
   ("amount_due", PyVal.str ""), ("service_current_on", PyVal.bool false),
   ("city_of_raleigh_utility_account_number", PyVal.str ""),
   ("name_on_account", PyVal.str ""),
   ("would_you_like_to_register_to_vote", PyVal.bool false),
   ("signature_applicant", PyVal.str ""), ("signature_date", PyVal.str "")]

/-- Embedding of the Python dict merge `{**d, **a}`: the keys of `d` in their
order with values overridden by `a` where present, followed by the keys of
`a` absent from `d`, in their order. -/
def pyMergeDicts (d a : List (String × PyVal)) : List (String × PyVal) :=
  (d.map fun kv => (kv.1, (dlookup a kv.1).getD kv.2)) ++
  (a.filter fun kv => (dlookup d kv.1).isNone)

/-- Embedding of `_fill_out_utility_form` (ragtools.py): merge the arguments
over `default_form` and return the JSON encoding with destination
`TO_SERVER`.  The function is total: it raises nothing for any argument
mapping. -/
def fillOutUtilityForm (args : List (String × PyVal)) : ToolResult :=
  { text := pyDumps (PyVal.dict (pyMergeDicts default_form args))
    destination := ToolResultDirection.TO_SERVER }

/-- The `mapped_data` dict literal of `_save_utility_form` (ragtools.py), in
source order: every column is `form_data.get(column)` except the three date
columns, which additionally pass through `try_parse_date` (which raises
`TypeError` on a truthy non-string). -/
def mapFormData (fd : List (String × PyVal)) : Except PyErr (List (String × PyVal)) :=
  match tryParseDatePy (pyGet fd "date_of_birth") with
  | Except.error e => Except.error e
  | Except.ok dob =>
    match tryParseDatePy (pyGet fd "most_recent_raleigh_water_assistance_date") with
    | Except.error e => Except.error e
    | Except.ok recent =>
      match tryParseDatePy (pyGet fd "signature_date") with
      | Except.error e => Except.error e
      | Except.ok sig =>
        Except.ok
          [("county_case_number", pyGet fd "county_case_number"),
           ("social_security_number", pyGet fd "social_security_number"),
           ("date_of_birth", dob),
           ("first_name", pyGet fd "first_name"),
           ("middle_initial", pyGet fd "middle_initial"),
           ("last_name", pyGet fd "last_name"),
           ("suffix", pyGet fd "suffix"),
           ("residence_address_street", pyGet fd "residence_address_street"),
           ("residence_address_city", pyGet fd "residence_address_city"),
           ("residence_address_zip", pyGet fd "residence_address_zip"),
           ("mailing_address_street", pyGet fd "mailing_address_street"),
           ("mailing_address_city", pyGet fd "mailing_address_city"),
           ("mailing_address_zip", pyGet fd "mailing_address_zip"),
           ("phone_number", pyGet fd "phone_number"),
           ("email_address", pyGet fd "email_address"),
           ("household_members", pyGet fd "household_members"),
           ("additional_income_sources", pyGet fd "additional_income_sources"),
           ("additional_family_members", pyGet fd "additional_family_members"),
           ("are_you_currently_receiving", pyGet fd "are_you_currently_receiving"),
           ("have_you_received_raleigh_water_assistance",
             pyGet fd "have_you_received_raleigh_water_assistance"),
           ("most_recent_raleigh_water_assistance_date", recent),
           ("are_you_renting_your_home_apartment",
             pyGet fd "are_you_renting_your_home_apartment"),
           ("amount_due", pyGet fd "amount_due"),
           ("service_current_on", pyGet fd "service_current_on"),
           ("city_of_raleigh_utility_account_number",
             pyGet fd "city_of_raleigh_utility_account_number"),
           ("name_on_account", pyGet fd "name_on_account"),
           ("would_you_like_to_register_to_vote",
             pyGet fd "would_you_like_to_register_to_vote"),
           ("signature_applicant", pyGet fd "signature_applicant"),
           ("signature_date", sig)]

/-- Embedding of `_save_utility_form` (ragtools.py).  The Supabase client and
`json.loads` are parameters: the client maps an insert payload to either the
inserted rows or the text of the raised exception; `json.loads` returns a
value or a `JSONDecodeError` (the only exception the `except` clause
catches).  Paths: a missing client returns the configured-check error result;
`args.get("form_data", "{}")` must be a string or `json.loads` raises
`TypeError` (uncaught); a parse failure returns the invalid-JSON error
result; a parsed non-dict raises `AttributeError` at `form_data.get`;
otherwise the mapped columns are inserted and both insert outcomes are
converted to a `TO_SERVER` result.  The second component of the returned pair
lists the insert payloads actually sent to the database. -/
def saveUtilityForm
    (supabase : Option (List (String × PyVal) → Except String (List PyVal)))
    (jsonLoads : String → Except Unit PyVal)
    (args : List (String × PyVal)) :
    Except PyErr (ToolResult × List (List (String × PyVal))) :=
  match supabase with
  | Option.none =>
    Except.ok
      ({ text := pyDumps (PyVal.dict [("status", PyVal.str "error"),
           ("message", PyVal.str "Supabase client is not configured. Check your SUPABASE_URL/KEY environment.")])
         destination := ToolResultDirection.TO_SERVER }, [])
  | some client =>
    match (dlookup args "form_data").getD (PyVal.str "\x7b\x7d") with
    | PyVal.str s =>
      match jsonLoads s with
      | Except.error _ =>
        Except.ok
          ({ text := pyDumps (PyVal.dict [("status", PyVal.str "error"),
               ("message", PyVal.str "Invalid JSON in form_data")])
             destination := ToolResultDirection.TO_SERVER }, [])
      | Except.ok (PyVal.dict fd) =>
        match mapFormData fd with
        | Except.error e => Except.error e
        | Except.ok mapped =>
          match client mapped with
          | Except.ok rows =>
            Except.ok
              ({ text := pyDumps (PyVal.dict [("status", PyVal.str "success"),
                   ("message", PyVal.str "Utility form data inserted successfully."),
                   ("inserted_rows", PyVal.list rows)])
                 destination := ToolResultDirection.TO_SERVER }, [mapped])
          | Except.error e =>
            Except.ok
              ({ text := pyDumps (PyVal.dict [("status", PyVal.str "error"),
                   ("message", PyVal.str ("Error inserting data: " ++ e))])
                 destination := ToolResultDirection.TO_SERVER }, [mapped])
      | Except.ok _ =>
        Except.error (PyErr.attributeError "object has no attribute get")
    | _ => Except.error (PyErr.typeError "the JSON object must be str, bytes or bytearray")

/-- The `use_vector_query` value computed in `create_app` (app.py):
`(os.environ.get("AZURE_SEARCH_USE_VECTOR_QUERY") == "true") or True`, where
the environment lookup yields `None` when the variable is unset. -/
def useVectorQueryFlag (env : Option String) : Bool :=
  (env == some "true") || true

/-- Identity of a tool stored in the registry `rtmt.tools`.  The four
constructors name the tools `attach_rag_tools` creates (each pairing its
schema literal with its handler); `other` stands for any tool object placed
in the registry by other means. -/
inductive ToolId where
  | search : ToolId
  | reportGrounding : ToolId
  | fillOutUtilityFormTool : ToolId
  | saveUtilityFormTool : ToolId
  | other (tag : String) : ToolId
deriving DecidableEq

/-- Embedding of `attach_rag_tools` (ragtools.py) on the registry: four plain
dict assignments `rtmt.tools[name] = Tool(...)`, in source order.  The
function always returns; no duplicate check is performed. -/
def attachRagTools (tools : List (String × ToolId)) : List (String × ToolId) :=
  dictSet (dictSet (dictSet (dictSet tools
    "search" ToolId.search)
    "report_grounding" ToolId.reportGrounding)
    "fill_out_utility_form" ToolId.fillOutUtilityFormTool)
    "save_utility_form" ToolId.saveUtilityFormTool

/-- Modelled from the spec: the registry of a freshly constructed
`RTMiddleTier` (rtmt.py, not part of the given sources) is empty — tools are
attached once at startup by `attach_rag_tools` and the spec makes membership
invariant afterwards. -/
def freshTools : List (String × ToolId) := []

/-- Modelled from the spec: the per-session server configuration the relay
(rtmt.py, not part of the given sources) injects into every outbound
session-update — the system message, the configured voice and the tool
schema array derived from the Tool Registry. -/
structure RTConfig where
  systemMessage : String
  voice : String
  tools : List (String × ToolId)

/-- Modelled from the spec: the outbound session-update transform of the
relay (rtmt.py, not part of the given sources).  The fields the server must
control — `instructions`, `voice` and `tools` — are overwritten with the
server-configured values regardless of the client-supplied content; fields
outside the override set pass through unchanged.  The tool array is derived
from the Tool Registry (represented here by the registered names). -/
def transformSessionUpdate (cfg : RTConfig) (session : List (String × PyVal)) :
    List (String × PyVal) :=
  dictSet (dictSet (dictSet session
    "instructions" (PyVal.str cfg.systemMessage))
    "voice" (PyVal.str cfg.voice))
    "tools" (PyVal.list (cfg.tools.map fun kv => PyVal.str kv.1))

/-- `Except` success test (the embedded handler did not raise). -/
def isOkE {ε α : Type} : Except ε α → Bool
  | Except.ok _ => true
  | Except.error _ => false

/-- The filter that C9's wording describes (an entry is kept only when every
one of its characters is in the class `[a-zA-Z0-9_=\-]`), to be compared
with the embedded `keyPatternMatch` that follows Python's `re.match`
semantics for the compiled `KEY_PATTERN`. -/
def claimKeyMatch (s : String) : Bool :=
  !s.data.isEmpty && s.data.all isKeyChar

theorem dlookup_dictSet_self {β : Type} (d : List (String × β)) (k : String) (v : β) :
    dlookup (dictSet d k v) k = some v := by
  induction d with
  | nil => simp [dictSet, dlookup]
  | cons hd tl ih =>
    obtain ⟨k', v'⟩ := hd
    by_cases h : k' = k
    · simp [dictSet, h, dlookup]
    · simp [dictSet, h, dlookup, ih]

theorem dlookup_dictSet_ne {β : Type} (d : List (String × β)) (k k' : String) (v : β)
    (h : k' ≠ k) : dlookup (dictSet d k v) k' = dlookup d k' := by
  induction d with
  | nil => simp [dictSet, dlookup, Ne.symm h]
  | cons hd tl ih =>
    obtain ⟨k0, v0⟩ := hd
    by_cases h0 : k0 = k
    · subst h0
      simp [dictSet, dlookup, Ne.symm h]
    · simp [dictSet, h0, dlookup, ih]

theorem dlookup_map_value (g : String → PyVal → PyVal) (d : List (String × PyVal))
    (k : String) :
    dlookup (d.map fun kv => (kv.1, g kv.1 kv.2)) k = (dlookup d k).map (g k) := by
  induction d with
  | nil => rfl
  | cons hd tl ih =>
    obtain ⟨k', v'⟩ := hd
    by_cases h : k' = k
    · subst h; simp [dlookup]
    · simp [dlookup, h, ih]

theorem dlookup_append_of_some {β : Type} (l1 l2 : List (String × β)) (k : String)
    (v : β) (h : dlookup l1 k = some v) : dlookup (l1 ++ l2) k = some v := by
  induction l1 with
  | nil => simp [dlookup] at h
  | cons hd tl ih =>
    obtain ⟨k', v'⟩ := hd
    by_cases h0 : k' = k
    · simp_all [dlookup]
    · simp_all [dlookup]

theorem dlookup_append_of_none {β : Type} (l1 l2 : List (String × β)) (k : String)
    (h : dlookup l1 k = Option.none) : dlookup (l1 ++ l2) k = dlookup l2 k := by
  induction l1 with
  | nil => rfl
  | cons hd tl ih =>
    obtain ⟨k', v'⟩ := hd
    by_cases h0 : k' = k
    · simp_all [dlookup]
    · simp_all [dlookup]

theorem dlookup_filter_key {β : Type} (p : String → Bool) (l : List (String × β))
    (k : String) :
    dlookup (l.filter fun kv => p kv.1) k = if p k then dlookup l k else Option.none := by
  induction l with
  | nil => simp [dlookup]
  | cons hd tl ih =>
    obtain ⟨k', v'⟩ := hd
    by_cases h : k' = k
    · subst h
      by_cases hp : p k'
      · simp [List.filter, hp, dlookup, ih]
      · simp [List.filter, hp, dlookup, ih]
    · by_cases hp : p k'
      · simp [List.filter, hp, dlookup, h, ih]
      · simp [List.filter, hp, dlookup, h, ih]

/-- C1: every outbound session-update forwarded by the relay carries the
server-configured instructions, voice and tool list, regardless of the
client-supplied content; in particular a client-requested voice `"nova"` is
replaced by the configured `"alloy"`. -/
theorem session_update_overrides_server_fields (cfg : RTConfig)
    (session : List (String × PyVal)) :
    dlookup (transformSessionUpdate cfg session) "instructions"
      = some (PyVal.str cfg.systemMessage) ∧
    dlookup (transformSessionUpdate cfg session) "voice" = some (PyVal.str cfg.voice) ∧
    dlookup (transformSessionUpdate cfg session) "tools"
      = some (PyVal.list (cfg.tools.map fun kv => PyVal.str kv.1)) ∧
    (∀ (msg : String) (ts : List (String × ToolId)),
      dlookup (transformSessionUpdate { systemMessage := msg, voice := "alloy", tools := ts }
          (dictSet session "voice" (PyVal.str "nova"))) "voice"
        = some (PyVal.str "alloy")) := by
  refine ⟨?_, ?_, ?_, ?_⟩
  · unfold transformSessionUpdate
    rw [dlookup_dictSet_ne _ _ _ _ (by decide), dlookup_dictSet_ne _ _ _ _ (by decide),
      dlookup_dictSet_self]
  · unfold transformSessionUpdate
    rw [dlookup_dictSet_ne _ _ _ _ (by decide), dlookup_dictSet_self]
  · unfold transformSessionUpdate
    rw [dlookup_dictSet_self]
  · intro msg ts
    unfold transformSessionUpdate
    rw [dlookup_dictSet_ne _ _ _ _ (by decide), dlookup_dictSet_self]

/-- C2: for every value of `AZURE_SEARCH_USE_VECTOR_QUERY` (unset included),
`use_vector_query` computed in `create_app` is `True`, and `_search_tool`
consequently always attaches a `VectorizableTextQuery` to the request it
sends to the search client — the flag never disables vector search. -/
theorem use_vector_query_always_true :
    (∀ env : Option String, useVectorQueryFlag env = true) ∧
    (∀ (sc : Option String) (idf cf emb : String) (env : Option String) (q : PyVal),
      (searchToolRequest sc idf cf emb (useVectorQueryFlag env) q).vectorQueries
        = [{ text := q, kNearestNeighbors := 50, fields := emb }]) ∧
    (∀ (sc : Option String) (idf cf emb : String) (env : Option String)
       (client : SearchRequest → List (List (String × String)))
       (args : List (String × PyVal)) (req : SearchRequest) (res : ToolResult),
      searchTool sc idf cf emb (useVectorQueryFlag env) client args = Except.ok (req, res) →
      req.vectorQueries ≠ []) := by
  have hflag : ∀ env : Option String, useVectorQueryFlag env = true := by
    intro env; simp [useVectorQueryFlag]
  refine ⟨hflag, ?_, ?_⟩
  · intro sc idf cf emb env q
    rw [hflag]
    rfl
  · intro sc idf cf emb env client args req res h
    rw [hflag] at h
    unfold searchTool at h
    split at h
    · exact absurd h (by simp)
    · split at h
      · exact absurd h (by simp)
      · rw [Except.ok.injEq, Prod.mk.injEq] at h
        rw [← h.1]
        simp [searchToolRequest]

/-- Witness for C2 at a concrete session: the request `_search_tool` builds
for query `"water"` under the always-true flag carries a vector query. -/
theorem use_vector_query_always_true_witness :
    (searchToolRequest Option.none "chunk_id" "chunk" "text_vector"
      (useVectorQueryFlag Option.none) (PyVal.str "water")).vectorQueries ≠ [] :=
  use_vector_query_always_true.2.2 Option.none "chunk_id" "chunk" "text_vector"
    Option.none (fun _ => []) [("query", PyVal.str "water")] _ _ rfl

/-- C6 counterexample: attaching over a registry that already contains a tool
named `"search"` silently replaces that entry — `attach_rag_tools` performs a
plain dict assignment, raises no `DuplicateToolError`, and the previous entry
is gone. -/
theorem attach_overwrites_existing_entry :
    dlookup (attachRagTools [("search", ToolId.other "previously registered")]) "search"
      = some ToolId.search ∧
    ToolId.search ≠ ToolId.other "previously registered" :=
  ⟨rfl, by decide⟩

/-- C6 (amended): a registration under an already-present name does not fail
and does not preserve the existing entry; `rtmt.tools[name] = Tool(...)` is a
plain dict assignment, so after `attach_rag_tools` every one of the four
names maps to the freshly constructed tool whatever the registry held
before. -/
theorem attach_rag_tools_replaces (r : List (String × ToolId)) :
    dlookup (attachRagTools r) "search" = some ToolId.search ∧
    dlookup (attachRagTools r) "report_grounding" = some ToolId.reportGrounding ∧
    dlookup (attachRagTools r) "fill_out_utility_form" = some ToolId.fillOutUtilityFormTool ∧
    dlookup (attachRagTools r) "save_utility_form" = some ToolId.saveUtilityFormTool := by
  unfold attachRagTools
  refine ⟨?_, ?_, ?_, ?_⟩
  · rw [dlookup_dictSet_ne _ _ _ _ (by decide), dlookup_dictSet_ne _ _ _ _ (by decide),
      dlookup_dictSet_ne _ _ _ _ (by decide), dlookup_dictSet_self]
  · rw [dlookup_dictSet_ne _ _ _ _ (by decide), dlookup_dictSet_ne _ _ _ _ (by decide),
      dlookup_dictSet_self]
  · rw [dlookup_dictSet_ne _ _ _ _ (by decide), dlookup_dictSet_self]
  · rw [dlookup_dictSet_self]

/-- C7: `attach_rag_tools` on the empty registry of a freshly constructed
`RTMiddleTier` yields exactly the four tools `"search"`,
`"report_grounding"`, `"fill_out_utility_form"` and `"save_utility_form"`, in
that order. -/
theorem attach_rag_tools_exact_membership :
    attachRagTools freshTools =
      [("search", ToolId.search), ("report_grounding", ToolId.reportGrounding),
       ("fill_out_utility_form", ToolId.fillOutUtilityFormTool),
       ("save_utility_form", ToolId.saveUtilityFormTool)] ∧
    (attachRagTools freshTools).map Prod.fst =
      ["search", "report_grounding", "fill_out_utility_form", "save_utility_form"] :=
  ⟨rfl, rfl⟩

theorem foldDocs_ok (idf cf : String) (docs : List (List (String × String)))
    (h : ∀ r ∈ docs, (dlookup r idf).isSome ∧ (dlookup r cf).isSome) :
    ∀ acc, ∃ t, foldDocs idf cf docs acc = Except.ok t := by
  induction docs with
  | nil => intro acc; exact ⟨acc, rfl⟩
  | cons r rest ih =>
    intro acc
    obtain ⟨h1, h2⟩ := h r (List.mem_cons_self r rest)
    obtain ⟨idv, hidv⟩ := Option.isSome_iff_exists.mp h1
    obtain ⟨cv, hcv⟩ := Option.isSome_iff_exists.mp h2
    have hrest : ∀ r' ∈ rest, (dlookup r' idf).isSome ∧ (dlookup r' cf).isSome :=
      fun r' hr' => h r' (List.mem_cons_of_mem r hr')
    obtain ⟨t, ht⟩ := ih hrest (acc ++ "[" ++ idv ++ "]: " ++ cv ++ "\n-----\n")
    exact ⟨t, by simp [foldDocs, hidv, hcv, ht]⟩

theorem groundingDocs_ok (idf tf cf : String) (docs : List (List (String × String)))
    (h : ∀ r ∈ docs,
      (dlookup r idf).isSome ∧ (dlookup r tf).isSome ∧ (dlookup r cf).isSome) :
    ∃ t, groundingDocs idf tf cf docs = Except.ok t := by
  induction docs with
  | nil => exact ⟨[], rfl⟩
  | cons r rest ih =>
    obtain ⟨h1, h2, h3⟩ := h r (List.mem_cons_self r rest)
    obtain ⟨idv, hidv⟩ := Option.isSome_iff_exists.mp h1
    obtain ⟨tv, htv⟩ := Option.isSome_iff_exists.mp h2
    obtain ⟨cv, hcv⟩ := Option.isSome_iff_exists.mp h3
    obtain ⟨t, ht⟩ := ih (fun r' hr' => h r' (List.mem_cons_of_mem r hr'))
    exact ⟨PyVal.dict [("chunk_id", PyVal.str idv), ("title", PyVal.str tv),
      ("chunk", PyVal.str cv)] :: t, by simp [groundingDocs, hidv, htv, hcv, ht]⟩

theorem filterSources_map_str (srcs : List String) :
    filterSources (srcs.map PyVal.str) = Except.ok (srcs.filter keyPatternMatch) := by
  induction srcs with
  | nil => rfl
  | cons s rest ih =>
    rw [List.map_cons, filterSources, ih]
    by_cases hp : keyPatternMatch s
    · simp [List.filter_cons, hp]
    · simp [List.filter_cons, hp]

/-- C5: when `form_data` is a string that is not valid JSON,
`_save_utility_form` returns an error ToolResult (`status: "error"`,
destination `TO_SERVER`) instead of raising, and no database insert is
attempted (the trace of insert payloads is empty).  The same holds on the
earlier unconfigured-client guard, which also precedes any insert. -/
theorem save_invalid_json_returns_error :
    (∀ (client : List (String × PyVal) → Except String (List PyVal))
       (jsonLoads : String → Except Unit PyVal)
       (args : List (String × PyVal)) (s : String),
      dlookup args "form_data" = some (PyVal.str s) →
      jsonLoads s = Except.error () →
      saveUtilityForm (some client) jsonLoads args =
        Except.ok
          ({ text := pyDumps (PyVal.dict [("status", PyVal.str "error"),
               ("message", PyVal.str "Invalid JSON in form_data")])
             destination := ToolResultDirection.TO_SERVER }, [])) ∧
    (∀ (jsonLoads : String → Except Unit PyVal) (args : List (String × PyVal)),
      saveUtilityForm Option.none jsonLoads args =
        Except.ok
          ({ text := pyDumps (PyVal.dict [("status", PyVal.str "error"),
               ("message", PyVal.str "Supabase client is not configured. Check your SUPABASE_URL/KEY environment.")])
             destination := ToolResultDirection.TO_SERVER }, [])) := by
  constructor
  · intro client jsonLoads args s h1 h2
    simp [saveUtilityForm, h1, h2]
  · intro jsonLoads args
    rfl

/-- Witness for C5: a concrete mapping whose `form_data` string fails to
parse yields exactly the invalid-JSON error result and an empty insert
trace. -/
theorem save_invalid_json_returns_error_witness :
    saveUtilityForm (some fun _ => Except.ok []) (fun _ => Except.error ())
      [("form_data", PyVal.str "not json")] =
      Except.ok
        ({ text := pyDumps (PyVal.dict [("status", PyVal.str "error"),
             ("message", PyVal.str "Invalid JSON in form_data")])
           destination := ToolResultDirection.TO_SERVER }, []) :=
  save_invalid_json_returns_error.1 _ _ _ "not json" rfl rfl

/-- C4 counterexample: a database insert that raises an exception whose text
is `"secret internal database details"` produces a ToolResult whose message
is `"Error inserting data: secret internal database details"` — the internal
exception details are embedded verbatim in the conversational payload, so
the message is not generic. -/
theorem save_insert_error_leaks_details :
    (saveUtilityForm (some fun _ => Except.error "secret internal database details")
        (fun _ => Except.ok (PyVal.dict [])) [("form_data", PyVal.str "\x7b\x7d")]).toOption.map
        (fun p => (p.1.text, p.1.destination)) =
      some (pyDumps (PyVal.dict [("status", PyVal.str "error"),
          ("message", PyVal.str "Error inserting data: secret internal database details")]),
        ToolResultDirection.TO_SERVER) := rfl

/-- C4 (amended): every exception raised by the database insert inside
`_save_utility_form` is caught and converted into an error ToolResult with
destination `TO_SERVER`, whose message is `"Error inserting data: "` followed
by the exception's text — i.e. the internal exception details are included
in the conversational payload rather than replaced by a generic message. -/
theorem save_insert_error_message
    (client : List (String × PyVal) → Except String (List PyVal))
    (jsonLoads : String → Except Unit PyVal)
    (args : List (String × PyVal)) (s : String) (fd mapped : List (String × PyVal))
    (e : String)
    (h1 : dlookup args "form_data" = some (PyVal.str s))
    (h2 : jsonLoads s = Except.ok (PyVal.dict fd))
    (h3 : mapFormData fd = Except.ok mapped)
    (h4 : client mapped = Except.error e) :
    saveUtilityForm (some client) jsonLoads args =
      Except.ok
        ({ text := pyDumps (PyVal.dict [("status", PyVal.str "error"),
             ("message", PyVal.str ("Error inserting data: " ++ e))])
           destination := ToolResultDirection.TO_SERVER }, [mapped]) := by
  simp [saveUtilityForm, h1, h2, h3, h4]

/-- Witness for C4's amended statement at a concrete failing insert. -/
theorem save_insert_error_message_witness :
    (saveUtilityForm (some fun _ => Except.error "connection refused")
        (fun _ => Except.ok (PyVal.dict [])) [("form_data", PyVal.str "\x7b\x7d")]).toOption.map
        (fun p => p.1.text) =
      some (pyDumps (PyVal.dict [("status", PyVal.str "error"),
        ("message", PyVal.str ("Error inserting data: " ++ "connection refused"))])) := by
  rw [save_insert_error_message (fun _ => Except.error "connection refused")
    (fun _ => Except.ok (PyVal.dict [])) [("form_data", PyVal.str "\x7b\x7d")]
    "\x7b\x7d" [] _ "connection refused" rfl rfl rfl rfl]
  rfl

/-- C3 counterexample: `_search_tool` invoked with an argument mapping that
lacks the `'query'` key raises `KeyError('query')` across the invocation
boundary instead of returning a ToolResult. -/
theorem search_tool_missing_query_raises :
    searchTool Option.none "chunk_id" "chunk" "text_vector" true (fun _ => []) [] =
      Except.error (PyErr.keyError "query") := rfl

/-- C3 (amended): `_fill_out_utility_form` returns a ToolResult for every
argument mapping, and the other three handlers return a ToolResult whenever
the mapping carries their expected argument with its expected type (`query`
present; `sources` a list of strings; `form_data` a string that either fails
to parse or parses to an object whose date fields the column mapping
accepts) and the external documents carry the selected fields; a mapping
missing the expected key (or a non-string `form_data`) instead makes the
handler itself raise, and the relay boundary outside these sources is what
must convert such failures. -/
theorem tool_handlers_return_results :
    (∀ args : List (String × PyVal),
      (fillOutUtilityForm args).destination = ToolResultDirection.TO_SERVER) ∧
    (∀ (sc : Option String) (idf cf emb : String) (uv : Bool)
       (client : SearchRequest → List (List (String × String)))
       (args : List (String × PyVal)) (q : PyVal),
      dlookup args "query" = some q →
      (∀ r ∈ client (searchToolRequest sc idf cf emb uv q),
        (dlookup r idf).isSome ∧ (dlookup r cf).isSome) →
      isOkE (searchTool sc idf cf emb uv client args) = true) ∧
    (∀ (idf tf cf : String)
       (client : GroundingRequest → List (List (String × String)))
       (args : List (String × PyVal)) (srcs : List String),
      dlookup args "sources" = some (PyVal.list (srcs.map PyVal.str)) →
      (∀ r ∈ client (groundingRequestFor idf tf cf (srcs.filter keyPatternMatch)),
        (dlookup r idf).isSome ∧ (dlookup r tf).isSome ∧ (dlookup r cf).isSome) →
      isOkE (reportGroundingTool idf tf cf client args) = true) ∧
    (∀ (client : List (String × PyVal) → Except String (List PyVal))
       (jsonLoads : String → Except Unit PyVal)
       (args : List (String × PyVal)) (s : String),
      dlookup args "form_data" = some (PyVal.str s) →
      (jsonLoads s = Except.error () ∨
        ∃ fd mapped, jsonLoads s = Except.ok (PyVal.dict fd) ∧
          mapFormData fd = Except.ok mapped) →
      isOkE (saveUtilityForm (some client) jsonLoads args) = true) ∧
    (∀ (jsonLoads : String → Except Unit PyVal) (args : List (String × PyVal)),
      isOkE (saveUtilityForm Option.none jsonLoads args) = true) := by
  refine ⟨fun _ => rfl, ?_, ?_, ?_, fun _ _ => rfl⟩
  · intro sc idf cf emb uv client args q hq hdocs
    obtain ⟨t, ht⟩ := foldDocs_ok idf cf _ hdocs ""
    simp [searchTool, hq, ht, isOkE]
  · intro idf tf cf client args srcs hs hdocs
    obtain ⟨t, ht⟩ := groundingDocs_ok idf tf cf _ hdocs
    simp [reportGroundingTool, hs, pyIter, filterSources_map_str, ht, isOkE]
  · intro client jsonLoads args s h1 h2
    rcases h2 with h2 | ⟨fd, mapped, h2a, h2b⟩
    · simp [saveUtilityForm, h1, h2, isOkE]
    · simp only [saveUtilityForm, h1, Option.getD_some, h2a, h2b]
      cases hc : client mapped <;> simp [hc, isOkE]

/-- Witness for C3's amended statement: each positive branch discharged at a
concrete invocation. -/
theorem tool_handlers_return_results_witness :
    (fillOutUtilityForm []).destination = ToolResultDirection.TO_SERVER ∧
    isOkE (searchTool Option.none "chunk_id" "chunk" "text_vector" true (fun _ => [])
      [("query", PyVal.str "water bill")]) = true ∧
    isOkE (reportGroundingTool "chunk_id" "title" "chunk" (fun _ => [])
      [("sources", PyVal.list [PyVal.str "doc_1"])]) = true ∧
    isOkE (saveUtilityForm (some fun _ => Except.ok []) (fun _ => Except.error ())
      [("form_data", PyVal.str "oops")]) = true ∧
    isOkE (saveUtilityForm Option.none (fun _ => Except.error ()) []) = true :=
  ⟨tool_handlers_return_results.1 [],
   tool_handlers_return_results.2.1 Option.none "chunk_id" "chunk" "text_vector" true
     (fun _ => []) [("query", PyVal.str "water bill")] (PyVal.str "water bill") rfl
     (by intro r hr; exact absurd hr (List.not_mem_nil r)),
   tool_handlers_return_results.2.2.1 "chunk_id" "title" "chunk" (fun _ => [])
     [("sources", PyVal.list [PyVal.str "doc_1"])] ["doc_1"] rfl
     (by intro r hr; exact absurd hr (List.not_mem_nil r)),
   tool_handlers_return_results.2.2.2.1 (fun _ => Except.ok []) (fun _ => Except.error ())
     [("form_data", PyVal.str "oops")] "oops" rfl (Or.inl rfl),
   tool_handlers_return_results.2.2.2.2 (fun _ => Except.error ()) []⟩

theorem dlookup_filter_default (a : List (String × PyVal)) (k : String) :
    dlookup (a.filter fun kv => (dlookup default_form kv.1).isNone) k =
      if (dlookup default_form k).isNone then dlookup a k else Option.none :=
  dlookup_filter_key (fun key => (dlookup default_form key).isNone) a k

/-- C8: `_fill_out_utility_form` returns a `TO_SERVER` ToolResult whose
payload is the JSON encoding of the merged form `{**default_form, **args}`:
the merged form keeps every key of the default form, takes the argument's
value for every key present in the arguments, and keeps the default value
for every key absent from the arguments — no other field changes. -/
theorem fill_out_utility_form_merge (args : List (String × PyVal)) :
    (fillOutUtilityForm args).destination = ToolResultDirection.TO_SERVER ∧
    (fillOutUtilityForm args).text = pyDumps (PyVal.dict (pyMergeDicts default_form args)) ∧
    (∀ k, (dlookup default_form k).isSome →
      (dlookup (pyMergeDicts default_form args) k).isSome) ∧
    (∀ k v, dlookup args k = some v →
      dlookup (pyMergeDicts default_form args) k = some v) ∧
    (∀ k, dlookup args k = Option.none →
      dlookup (pyMergeDicts default_form args) k = dlookup default_form k) := by
  refine ⟨rfl, rfl, ?_, ?_, ?_⟩
  · intro k hk
    obtain ⟨v0, hv0⟩ := Option.isSome_iff_exists.mp hk
    have hmap : dlookup (default_form.map fun kv => (kv.1, (dlookup args kv.1).getD kv.2)) k
        = some ((dlookup args k).getD v0) := by
      rw [dlookup_map_value (fun key v => (dlookup args key).getD v), hv0]
      rfl
    unfold pyMergeDicts
    rw [dlookup_append_of_some _ _ _ _ hmap]
    rfl
  · intro k v hv
    cases h0 : dlookup default_form k with
    | some v0 =>
      have hmap : dlookup (default_form.map fun kv => (kv.1, (dlookup args kv.1).getD kv.2)) k
          = some v := by
        rw [dlookup_map_value (fun key v => (dlookup args key).getD v), h0]
        simp [hv]
      unfold pyMergeDicts
      exact dlookup_append_of_some _ _ _ _ hmap
    | none =>
      have hmap : dlookup (default_form.map fun kv => (kv.1, (dlookup args kv.1).getD kv.2)) k
          = Option.none := by
        rw [dlookup_map_value (fun key v => (dlookup args key).getD v), h0]
        rfl
      unfold pyMergeDicts
      rw [dlookup_append_of_none _ _ _ hmap, dlookup_filter_default]
      simp [h0, hv]
  · intro k hv
    cases h0 : dlookup default_form k with
    | some v0 =>
      have hmap : dlookup (default_form.map fun kv => (kv.1, (dlookup args kv.1).getD kv.2)) k
          = some v0 := by
        rw [dlookup_map_value (fun key v => (dlookup args key).getD v), h0]
        simp [hv]
      unfold pyMergeDicts
      rw [dlookup_append_of_some _ _ _ _ hmap]
    | none =>
      have hmap : dlookup (default_form.map fun kv => (kv.1, (dlookup args kv.1).getD kv.2)) k
          = Option.none := by
        rw [dlookup_map_value (fun key v => (dlookup args key).getD v), h0]
        rfl
      unfold pyMergeDicts
      rw [dlookup_append_of_none _ _ _ hmap, dlookup_filter_default]
      simp [h0, hv]

/-- Witness for C8 at a concrete argument mapping: a supplied key overrides,
an extra key is carried, an untouched default key keeps its default. -/
theorem fill_out_utility_form_merge_witness :
    (fillOutUtilityForm [("first_name", PyVal.str "Ada"),
        ("extra_field", PyVal.int 3)]).destination = ToolResultDirection.TO_SERVER ∧
    dlookup (pyMergeDicts default_form [("first_name", PyVal.str "Ada"),
        ("extra_field", PyVal.int 3)]) "first_name" = some (PyVal.str "Ada") ∧
    dlookup (pyMergeDicts default_form [("first_name", PyVal.str "Ada"),
        ("extra_field", PyVal.int 3)]) "extra_field" = some (PyVal.int 3) ∧
    dlookup (pyMergeDicts default_form [("first_name", PyVal.str "Ada"),
        ("extra_field", PyVal.int 3)]) "last_name" = dlookup default_form "last_name" :=
  ⟨(fill_out_utility_form_merge _).1,
   (fill_out_utility_form_merge _).2.2.2.1 "first_name" _ rfl,
   (fill_out_utility_form_merge _).2.2.2.1 "extra_field" _ rfl,
   (fill_out_utility_form_merge _).2.2.2.2 "last_name" rfl⟩

/-- C9 counterexample: the entry `"abc\n"` contains a character (the newline)
outside the class `[a-zA-Z0-9_=\-]`, so under the claim's reading it would be
excluded and the joined `search_text` would be empty; but Python's `$`
matches just before a trailing newline, so `KEY_PATTERN.match("abc\n")` is
truthy and `_report_grounding_tool` sends `search_text = "abc\n"`. -/
theorem report_grounding_newline_source_kept :
    reportGroundingTool "chunk_id" "title" "chunk" (fun _ => [])
        [("sources", PyVal.list [PyVal.str "abc\n"])] =
      Except.ok (groundingRequestFor "chunk_id" "title" "chunk" ["abc\n"],
        { text := pyDumps (PyVal.dict [("sources", PyVal.list [])])
          destination := ToolResultDirection.TO_CLIENT }) ∧
    (groundingRequestFor "chunk_id" "title" "chunk" ["abc\n"]).searchText = "abc\n" ∧
    keyPatternMatch "abc\n" = true ∧
    claimKeyMatch "abc\n" = false ∧
    List.filter claimKeyMatch ["abc\n"] = [] ∧
    String.intercalate " OR " (List.filter claimKeyMatch ["abc\n"]) = "" := by
  refine ⟨rfl, by decide, by decide, by decide, by decide, by decide⟩

/-- C9 (amended): for a `sources` list of strings, the `search_text` the
grounding tool sends is the `" OR "`-join, in original order, of exactly the
entries accepted by `KEY_PATTERN.match` under Python semantics (a nonempty
run of `[a-zA-Z0-9_=\-]` characters, optionally followed by one trailing
newline); `top` is the count of those entries, and the returned ToolResult
always has destination `TO_CLIENT`. -/
theorem report_grounding_search_text
    (idf tf cf : String) (client : GroundingRequest → List (List (String × String)))
    (args : List (String × PyVal)) (srcs : List String)
    (req : GroundingRequest) (res : ToolResult)
    (h1 : dlookup args "sources" = some (PyVal.list (srcs.map PyVal.str)))
    (h2 : reportGroundingTool idf tf cf client args = Except.ok (req, res)) :
    req.searchText = String.intercalate " OR " (srcs.filter keyPatternMatch) ∧
    req.top = (srcs.filter keyPatternMatch).length ∧
    res.destination = ToolResultDirection.TO_CLIENT := by
  simp only [reportGroundingTool, h1, pyIter, filterSources_map_str] at h2
  split at h2
  · simp at h2
  · rw [Except.ok.injEq, Prod.mk.injEq] at h2
    obtain ⟨hreq, hres⟩ := h2
    rw [← hreq, ← hres]
    exact ⟨rfl, rfl, rfl⟩

/-- Witness for C9's amended statement at a concrete invocation. -/
theorem report_grounding_search_text_witness :
    (groundingRequestFor "chunk_id" "title" "chunk"
      (["doc_1", "bad name"].filter keyPatternMatch)).searchText =
        String.intercalate " OR " (["doc_1", "bad name"].filter keyPatternMatch) ∧
    (groundingRequestFor "chunk_id" "title" "chunk"
      (["doc_1", "bad name"].filter keyPatternMatch)).top =
        (["doc_1", "bad name"].filter keyPatternMatch).length ∧
    (({ text := pyDumps (PyVal.dict [("sources", PyVal.list [])])
        destination := ToolResultDirection.TO_CLIENT } : ToolResult)).destination =
      ToolResultDirection.TO_CLIENT :=
  report_grounding_search_text "chunk_id" "title" "chunk" (fun _ => [])
    [("sources", PyVal.list [PyVal.str "doc_1", PyVal.str "bad name"])]
    ["doc_1", "bad name"] _ _ rfl rfl

theorem isDig_digitChar (k : Nat) (hk : k ≤ 9) :
    isDig (Char.ofNat (48 + k)) = true := by
  interval_cases k <;> decide

theorem digVal_digitChar (k : Nat) (hk : k ≤ 9) :
    digVal (Char.ofNat (48 + k)) = k := by
  interval_cases k <;> decide

theorem isDig_bounds (c : Char) (h : isDig c = true) :
    48 ≤ c.toNat ∧ c.toNat ≤ 57 := by
  simpa [isDig] using h

theorem digVal_le_nine (c : Char) (h : isDig c = true) : digVal c ≤ 9 := by
  obtain ⟨h1, h2⟩ := isDig_bounds c h
  unfold digVal
  omega

theorem digitsVal_four_le (c1 c2 c3 c4 : Char) (h1 : isDig c1 = true)
    (h2 : isDig c2 = true) (h3 : isDig c3 = true) (h4 : isDig c4 = true) :
    digitsVal [c1, c2, c3, c4] ≤ 9999 := by
  have b1 := digVal_le_nine c1 h1
  have b2 := digVal_le_nine c2 h2
  have b3 := digVal_le_nine c3 h3
  have b4 := digVal_le_nine c4 h4
  simp only [digitsVal, List.foldl]
  omega

theorem parseYMDChars_valid (cs : List Char) (y m d : Nat)
    (h : parseYMDChars cs = some (y, m, d)) :
    1 ≤ y ∧ y ≤ 9999 ∧ 1 ≤ m ∧ m ≤ 12 ∧ 1 ≤ d ∧ d ≤ daysInMonth y m := by
  unfold parseYMDChars at h
  split at h
  · split at h
    · split at h
      · split at h
        · split at h
          · split at h
            · rename_i x1 c1 c2 c3 c4 c5 rest hdig x2 c6 rest2 heq hc6 hlen hval
              rw [Option.some.injEq, Prod.mk.injEq, Prod.mk.injEq] at h
              obtain ⟨hy, hm, hd⟩ := h
              subst hy hm hd
              simp only [Bool.and_eq_true] at hdig
              obtain ⟨⟨⟨⟨d1, d2⟩, d3⟩, d4⟩, hdash⟩ := hdig
              exact ⟨hval.1, digitsVal_four_le c1 c2 c3 c4 d1 d2 d3 d4,
                hval.2.1, hval.2.2.1, hval.2.2.2.1, hval.2.2.2.2⟩
            · exact absurd h (by simp)
          · exact absurd h (by simp)
        · exact absurd h (by simp)
      · exact absurd h (by simp)
    · exact absurd h (by simp)
  · exact absurd h (by simp)

theorem daysInMonth_le_31 (y m : Nat) : daysInMonth y m ≤ 31 := by
  unfold daysInMonth
  split
  · split <;> omega
  · split <;> omega

theorem parseYMDChars_renderYMD (y m d : Nat) (h1 : 1 ≤ y) (h2 : y ≤ 9999)
    (h3 : 1 ≤ m) (h4 : m ≤ 12) (h5 : 1 ≤ d) (h6 : d ≤ daysInMonth y m) :
    parseYMDChars (renderYMD y m d) = some (y, m, d) := by
  have e1 : isDig (Char.ofNat (48 + y / 1000 % 10)) = true := isDig_digitChar _ (by omega)
  have e2 : isDig (Char.ofNat (48 + y / 100 % 10)) = true := isDig_digitChar _ (by omega)
  have e3 : isDig (Char.ofNat (48 + y / 10 % 10)) = true := isDig_digitChar _ (by omega)
  have e4 : isDig (Char.ofNat (48 + y % 10)) = true := isDig_digitChar _ (by omega)
  have e5 : isDig (Char.ofNat (48 + m / 10 % 10)) = true := isDig_digitChar _ (by omega)
  have e6 : isDig (Char.ofNat (48 + m % 10)) = true := isDig_digitChar _ (by omega)
  have e7 : isDig (Char.ofNat (48 + d / 10 % 10)) = true := isDig_digitChar _ (by omega)
  have e8 : isDig (Char.ofNat (48 + d % 10)) = true := isDig_digitChar _ (by omega)
  have edash : isDig '-' = false := by decide
  have v1 : digVal (Char.ofNat (48 + y / 1000 % 10)) = y / 1000 % 10 := digVal_digitChar _ (by omega)
  have v2 : digVal (Char.ofNat (48 + y / 100 % 10)) = y / 100 % 10 := digVal_digitChar _ (by omega)
  have v3 : digVal (Char.ofNat (48 + y / 10 % 10)) = y / 10 % 10 := digVal_digitChar _ (by omega)
  have v4 : digVal (Char.ofNat (48 + y % 10)) = y % 10 := digVal_digitChar _ (by omega)
  have v5 : digVal (Char.ofNat (48 + m / 10 % 10)) = m / 10 % 10 := digVal_digitChar _ (by omega)
  have v6 : digVal (Char.ofNat (48 + m % 10)) = m % 10 := digVal_digitChar _ (by omega)
  have v7 : digVal (Char.ofNat (48 + d / 10 % 10)) = d / 10 % 10 := digVal_digitChar _ (by omega)
  have v8 : digVal (Char.ofNat (48 + d % 10)) = d % 10 := digVal_digitChar _ (by omega)
  have hyv : digitsVal [Char.ofNat (48 + y / 1000 % 10), Char.ofNat (48 + y / 100 % 10),
      Char.ofNat (48 + y / 10 % 10), Char.ofNat (48 + y % 10)] = y := by
    show (((0 * 10 + digVal (Char.ofNat (48 + y / 1000 % 10))) * 10 +
      digVal (Char.ofNat (48 + y / 100 % 10))) * 10 +
      digVal (Char.ofNat (48 + y / 10 % 10))) * 10 +
      digVal (Char.ofNat (48 + y % 10)) = y
    rw [v1, v2, v3, v4]; omega
  have hmv : digitsVal [Char.ofNat (48 + m / 10 % 10), Char.ofNat (48 + m % 10)] = m := by
    show (0 * 10 + digVal (Char.ofNat (48 + m / 10 % 10))) * 10 +
      digVal (Char.ofNat (48 + m % 10)) = m
    rw [v5, v6]; omega
  have hdv : digitsVal [Char.ofNat (48 + d / 10 % 10), Char.ofNat (48 + d % 10)] = d := by
    have h31 : d ≤ 31 := le_trans h6 (daysInMonth_le_31 y m)
    show (0 * 10 + digVal (Char.ofNat (48 + d / 10 % 10))) * 10 +
      digVal (Char.ofNat (48 + d % 10)) = d
    rw [v7, v8]; omega
  unfold renderYMD
  simp only [parseYMDChars, List.dropWhile, List.takeWhile, e1, e2, e3, e4, e5, e6, e7, e8,
    edash, Bool.true_and, Bool.and_true, Bool.and_self, decide_True, List.length_cons,
    List.length_nil, hyv, hmv, hdv]
  simp [h1, h3, h4, h5, h6]

theorem try_parse_date_aux (s : String) (r : String)
    (h : try_parse_date (some s) = some r) :
    ∃ y m d, parseYMDChars s.data = some (y, m, d) ∧
      r = String.mk (renderYMD y m d) := by
  simp only [try_parse_date] at h
  split at h
  · simp at h
  · split at h
    · rename_i y m d heq
      exact ⟨y, m, d, heq, by injection h with h; exact h.symm⟩
    · simp at h

/-- C10: `try_parse_date` returns `None` exactly when its input is missing,
empty, or not parseable in `%Y-%m-%d` format; otherwise it returns the
canonical zero-padded `YYYY-MM-DD` rendering of a valid date, and it is
idempotent on its outputs: reparsing a returned string returns that same
string. -/
theorem try_parse_date_contract :
    (∀ o, try_parse_date o = Option.none ↔
      (o = Option.none ∨ o = some "" ∨
        ∃ s, o = some s ∧ parseYMDChars s.data = Option.none)) ∧
    (∀ s r, try_parse_date (some s) = some r →
      ∃ y m d, (1 ≤ y ∧ y ≤ 9999 ∧ 1 ≤ m ∧ m ≤ 12 ∧ 1 ≤ d ∧ d ≤ daysInMonth y m) ∧
        r = String.mk (renderYMD y m d)) ∧
    (∀ o r, try_parse_date o = some r → try_parse_date (some r) = some r) := by
  refine ⟨?_, ?_, ?_⟩
  · intro o
    cases o with
    | none => simp [try_parse_date]
    | some s =>
      by_cases he : s.data.isEmpty
      · have hs : s = "" := by
          cases s with
          | mk l => cases l with
            | nil => rfl
            | cons a t => simp [List.isEmpty] at he
        subst hs
        simp [try_parse_date]
      · cases hp : parseYMDChars s.data with
        | none =>
          constructor
          · intro _
            exact Or.inr (Or.inr ⟨s, rfl, hp⟩)
          · intro _
            simp [try_parse_date, he, hp]
        | some t =>
          obtain ⟨y, m, d⟩ := t
          constructor
          · intro hnone
            simp [try_parse_date, he, hp] at hnone
          · intro hr
            rcases hr with hr | hr | ⟨s', hs', hp'⟩
            · exact absurd hr (by simp)
            · rw [Option.some.injEq] at hr
              subst hr
              simp at he
            · rw [Option.some.injEq] at hs'
              subst hs'
              rw [hp'] at hp
              exact absurd hp (by simp)
  · intro s r h
    obtain ⟨y, m, d, hp, hr⟩ := try_parse_date_aux s r h
    exact ⟨y, m, d, parseYMDChars_valid s.data y m d hp, hr⟩
  · intro o r h
    cases o with
    | none => simp [try_parse_date] at h
    | some s =>
      obtain ⟨y, m, d, hp, hr⟩ := try_parse_date_aux s r h
      have hv := parseYMDChars_valid s.data y m d hp
      subst hr
      have hdata : (String.mk (renderYMD y m d)).data = renderYMD y m d := rfl
      have hne : (String.mk (renderYMD y m d)).data.isEmpty = false := by
        rw [hdata]
        unfold renderYMD
        rfl
      have hrt := parseYMDChars_renderYMD y m d hv.1 hv.2.1 hv.2.2.1 hv.2.2.2.1
        hv.2.2.2.2.1 hv.2.2.2.2.2
      simp [try_parse_date, hdata, hne, hrt]

/-- Witness for C10: `"2020-1-5"` parses (one-digit month and day are
accepted by `strptime`), is rendered zero-padded, and the rendered output
reparses to itself. -/
theorem try_parse_date_contract_witness :
    try_parse_date (some "2020-1-5") = some "2020-01-05" ∧
    try_parse_date (some "2020-01-05") = some "2020-01-05" :=
  ⟨by decide, try_parse_date_contract.2.2 (some "2020-1-5") "2020-01-05" (by decide)⟩
